import Mathlib

/-!
Verification development for the PlayCord matchmaking / game-session /
rating-settlement core.

Each definition below is a shallow embedding of a function or state
transition of the source (file and function named in its doc comment).
Python sets are modelled as duplicate-free lists, dictionaries as
association lists, `asyncio` interleaving as an explicit small-step
scheduler over task phases, and exceptions as `Except`.
-/

namespace PlayCord

/-! ## Player-count verification (`utils/conversion.py`) -/

/-- The `players` attribute of a game class: either one exact count or a
list of acceptable counts (`utils/conversion.py`, `player_verification_function`
argument). -/
inductive PlayersSpec where
  | exact (c : Nat)
  | counts (L : List Nat)
deriving DecidableEq, Repr

/-- `utils/conversion.py player_verification_function`: for an `int`, the
returned predicate is `x == possible_players`; for a list it is
`x in set(possible_players)`. -/
def player_verification_function : PlayersSpec → Nat → Bool
  | .exact c, x => x == c
  | .counts L, x => L.contains x

/-! ## Rating constants and first-contact rating records
(`configuration/constants.py`, `utils/database.py`) -/

/-- `configuration/constants.py`: `MU = 1000`. -/
def MU : ℚ := 1000

/-- Per-game TrueSkill parameter block from `configuration/constants.py`
(`GAME_TRUESKILL` values: sigma, beta, tau, draw). -/
structure TrueskillParams where
  sigma : ℚ
  beta : ℚ
  tau : ℚ
  draw : ℚ
deriving DecidableEq, Repr

/-- `configuration/constants.py GAME_TRUESKILL` (1/2.5 = 2/5). -/
def GAME_TRUESKILL : List (String × TrueskillParams) :=
  [("tictactoe", ⟨1/6, 1/12, 1/100, 9/10⟩),
   ("liars", ⟨2/5, 1/5, 1/250, 0⟩),
   ("test", ⟨1/3, 1/5, 1/250, 0⟩)]

/-- Dictionary lookup `GAME_TRUESKILL[name]`. -/
def lookupTrueskill (name : String) : Option TrueskillParams :=
  (GAME_TRUESKILL.find? (fun p => p.1 == name)).map Prod.snd

/-- `utils/database.py InternalPlayerRatingStatistic` (name, mu, sigma,
stored flag). -/
structure InternalPlayerRatingStatistic where
  name : String
  mu : ℚ
  sigma : ℚ
  stored : Bool
deriving DecidableEq, Repr

/-- `InternalPlayerRatingStatistic.__init__` with `mu is None` (no stored
rating, i.e. first contact with the game type): `mu = MU`,
`sigma = GAME_TRUESKILL[name]["sigma"] * MU`, `stored = False`.
`None` when the game type is not configured. -/
def initialRatingStatistic (name : String) : Option InternalPlayerRatingStatistic :=
  (lookupTrueskill name).map fun p => ⟨name, MU, p.sigma * MU, false⟩

/-- `utils/database.py Database.initialize_user_game_ratings`: the (mu, sigma)
pair inserted on first contact: `mu = MU`, `sigma = GAME_TRUESKILL[game_name]["sigma"] * mu`. -/
def initialize_user_game_ratings (game_name : String) : Option (ℚ × ℚ) :=
  (lookupTrueskill game_name).map fun p => (MU, p.sigma * MU)

/-! ## Matchmaking lobby (`utils/interfaces.py MatchmakingInterface`)

Python sets (`queued_players`, `whitelist`, `blacklist`) are modelled as
duplicate-free lists of player ids (`InternalPlayer.__eq__`/`__hash__`
compare by id, so the id is the set element). -/

abbrev PlayerId := Nat

/-- `set.add`: add unless already present. -/
def setAdd (l : List PlayerId) (a : PlayerId) : List PlayerId :=
  if a ∈ l then l else l ++ [a]

/-- State of one `MatchmakingInterface` (`utils/interfaces.py`, `__init__`):
creator, game type, rated/private flags, whitelist, blacklist, queued
players, tri-state outcome (`None` pending, `some true` succeeded,
`some false` cancelled), the id of its status message, and the game
class's `players` attribute (absent means any count is accepted). -/
structure MatchmakingInterface where
  creator : PlayerId
  game_type : String
  rated : Bool
  isPrivate : Bool
  whitelist : List PlayerId
  blacklist : List PlayerId
  queued_players : List PlayerId
  outcome : Option Bool
  message_id : Nat
  players_attr : Option PlayersSpec
deriving DecidableEq, Repr

/-- `MatchmakingInterface.__init__`: whitelist and queue start as
`{creator}`, blacklist empty, outcome `None`. -/
def mkMatchmakingInterface (creator : PlayerId) (game_type : String) (message_id : Nat)
    (rated isPrivate : Bool) (players_attr : Option PlayersSpec) : MatchmakingInterface :=
  { creator := creator, game_type := game_type, rated := rated, isPrivate := isPrivate,
    whitelist := [creator], blacklist := [], queued_players := [creator],
    outcome := none, message_id := message_id, players_attr := players_attr }

/-- `MatchmakingInterface.__init__`: `self.player_verification_function`
is `lambda x: True` when the game class has no `players` attribute, else
`player_verification_function(self.game.players)`. -/
def lobby_player_verification (m : MatchmakingInterface) (n : Nat) : Bool :=
  match m.players_attr with
  | none => true
  | some s => player_verification_function s n

/-- `MatchmakingInterface.update_embed`: whether the start button is
enabled: `start_enabled = self.player_verification_function(len(self.queued_players))`. -/
def update_embed_can_start (m : MatchmakingInterface) : Bool :=
  lobby_player_verification m m.queued_players.length

/-- Result of `callback_ready_game` (which message the actor received). -/
inductive JoinResult where
  | alreadyIn
  | banned
  | notWhitelisted
  | joined
deriving DecidableEq, Repr

/-- `MatchmakingInterface.callback_ready_game`: reject if the actor's id is
already among the queued players; on a public lobby reject a blacklisted
actor, otherwise add to the queue; on a private lobby reject an actor not
on the whitelist, otherwise add to the queue. The lobby `outcome` field is
never consulted. -/
def callback_ready_game (m : MatchmakingInterface) (actor : PlayerId) :
    JoinResult × MatchmakingInterface :=
  if actor ∈ m.queued_players then (.alreadyIn, m)
  else if !m.isPrivate then
    if actor ∈ m.blacklist then (.banned, m)
    else (.joined, { m with queued_players := setAdd m.queued_players actor })
  else
    if actor ∉ m.whitelist then (.notWhitelisted, m)
    else (.joined, { m with queued_players := setAdd m.queued_players actor })

/-- Result of `callback_leave_game`. -/
inductive LeaveResult where
  | notQueued
  | cancelledLobby
  | left
deriving DecidableEq, Repr

/-- `MatchmakingInterface.callback_leave_game`: reject if absent; remove the
actor from the queue; if the queue became empty set `outcome = False`
(cancelled) and stop; if the actor was the creator, hand creatorship to an
arbitrary remaining member (`next(iter(...))`, modelled as the list head). -/
def callback_leave_game (m : MatchmakingInterface) (actor : PlayerId) :
    LeaveResult × MatchmakingInterface :=
  if actor ∉ m.queued_players then (.notQueued, m)
  else
    let q := m.queued_players.erase actor
    if q.isEmpty then (.cancelledLobby, { m with queued_players := q, outcome := some false })
    else if actor = m.creator then
      (.left, { m with queued_players := q, creator := q.headD actor })
    else (.left, { m with queued_players := q })

/-- Result of `callback_start_game`. -/
inductive StartResult where
  | notCreator
  | started
deriving DecidableEq, Repr

/-- `MatchmakingInterface.callback_start_game`: if the actor is not the
creator, reject; otherwise set `outcome = True` and hand off to
`successful_matchmaking`. No player-count check is performed here. -/
def callback_start_game (m : MatchmakingInterface) (actor : PlayerId) :
    StartResult × MatchmakingInterface :=
  if actor ≠ m.creator then (.notCreator, m)
  else (.started, { m with outcome := some true })

/-- `MatchmakingInterface.accept_invite`: reject if the actor's id is
already among the queued players; otherwise on a private lobby add the
actor to the whitelist, on a public lobby remove them from the blacklist
(`KeyError` swallowed when absent), then add the actor to the queue.
Returns whether the invite succeeded. -/
def accept_invite (m : MatchmakingInterface) (actor : PlayerId) :
    Bool × MatchmakingInterface :=
  if actor ∈ m.queued_players then (false, m)
  else
    let m2 := if m.isPrivate then { m with whitelist := setAdd m.whitelist actor }
              else { m with blacklist := m.blacklist.erase actor }
    (true, { m2 with queued_players := setAdd m2.queued_players actor })

/-! ## Process-wide registries (`configuration/constants.py`, `bot.py`) -/

/-- Dictionary assignment `d[k] = v` on an association list. -/
def mapSet {β : Type} (l : List (Nat × β)) (k : Nat) (v : β) : List (Nat × β) :=
  if l.any (fun p => p.1 == k) then l.map (fun p => if p.1 == k then (k, v) else p)
  else l ++ [(k, v)]

/-- Dictionary lookup `d[k]` / `k in d`. -/
def mapGet {β : Type} (l : List (Nat × β)) (k : Nat) : Option β :=
  (l.find? (fun p => p.1 == k)).map Prod.snd

/-- Dictionary `d.pop(k)`. -/
def mapPop {β : Type} (l : List (Nat × β)) (k : Nat) : List (Nat × β) :=
  l.filter (fun p => p.1 != k)

/-- The process-wide matchmaking registries of `configuration/constants.py`:
`CURRENT_MATCHMAKING` (message id ↦ interface) and `IN_MATCHMAKING`
(player ↦ interface, recorded here by the message id of that interface). -/
structure BotState where
  current_matchmaking : List (Nat × MatchmakingInterface)
  in_matchmaking : List (PlayerId × Nat)
deriving DecidableEq, Repr

/-- `bot.py begin_game` together with `MatchmakingInterface.__init__`
(the registration path, database reachable): unconditionally creates a new
interface whose queue is `{creator}` and registers it in
`CURRENT_MATCHMAKING` and `IN_MATCHMAKING`. Neither `begin_game` nor the
constructor consults `IN_MATCHMAKING` or `IN_GAME` about the creator. -/
def begin_game (s : BotState) (creator : PlayerId) (game_type : String) (message_id : Nat)
    (rated isPrivate : Bool) (players_attr : Option PlayersSpec) : BotState :=
  let m := mkMatchmakingInterface creator game_type message_id rated isPrivate players_attr
  { current_matchmaking := mapSet s.current_matchmaking message_id m,
    in_matchmaking := mapSet s.in_matchmaking creator message_id }

/-- `bot.py matchmaking_button_callback` join path: look the interface up in
`CURRENT_MATCHMAKING` (`none` = expired) and run `callback_ready_game`,
which on success also does `IN_MATCHMAKING.update({new_player: self})`. -/
def joinLobby (s : BotState) (message_id : Nat) (actor : PlayerId) :
    Option JoinResult × BotState :=
  match mapGet s.current_matchmaking message_id with
  | none => (none, s)
  | some m =>
    let rm := callback_ready_game m actor
    (some rm.1,
     { current_matchmaking := mapSet s.current_matchmaking message_id rm.2,
       in_matchmaking :=
         if rm.1 = .joined then mapSet s.in_matchmaking actor message_id
         else s.in_matchmaking })

/-! ## Game session orchestration (`utils/interfaces.py GameInterface`)

The plugin (`Game Plugin Contract`, `api/Game.py`) is abstracted by its
three capabilities the orchestrator uses: `current_turn()`, the move
handler (which may raise), and `outcome()`. Game state is an opaque
counter threaded through the handler. -/

/-- One coerced move argument (`move_by_button` type conversion target). -/
inductive ArgValue where
  | intV (n : Int)
  | floatV (q : ℚ)
  | strV (s : String)
deriving DecidableEq, Repr

/-- A declared handler parameter annotation (`inspect.signature` view). -/
inductive ParamType where
  | int
  | float
  | str
deriving DecidableEq, Repr

/-- Decimal digit value of a character, `none` for a non-digit. -/
def digit? (c : Char) : Option Nat :=
  if c = '0' then some 0 else if c = '1' then some 1 else if c = '2' then some 2
  else if c = '3' then some 3 else if c = '4' then some 4 else if c = '5' then some 5
  else if c = '6' then some 6 else if c = '7' then some 7 else if c = '8' then some 8
  else if c = '9' then some 9 else none

/-- Accumulate a decimal number from a character list, `none` on the first
non-digit. -/
def digitsToNat (acc : Nat) : List Char → Option Nat
  | [] => some acc
  | c :: cs =>
    match digit? c with
    | none => none
    | some d => digitsToNat (acc * 10 + d) cs

/-- The integer literals accepted by Python `int(str)` (an optional sign
then decimal digits; the surrounding-whitespace tolerance of `int()` is
irrelevant to button payloads and not modelled). -/
def pyIntParse (s : String) : Option Int :=
  match s.data with
  | [] => none
  | '-' :: rest =>
    match rest with
    | [] => none
    | _ => (digitsToNat 0 rest).map (fun n => -(n : Int))
  | l => (digitsToNat 0 l).map (fun n => (n : Int))

/-- Python `int(s)`: the parsed integer, or a raised `ValueError`. -/
def pyInt (s : String) : Except String Int :=
  match pyIntParse s with
  | some n => .ok n
  | none => .error "ValueError"

/-- Python `float(s)`, restricted to the integer literals this bot ever
puts into button payloads; a non-numeric string raises `ValueError`. -/
def pyFloat (s : String) : Except String ℚ :=
  match pyIntParse s with
  | some n => .ok (n : ℚ)
  | none => .error "ValueError"

/-- The abstract game plugin as used by the orchestrator: `current_turn`,
a move handler taking the acting player and the coerced arguments (and
possibly raising), and `outcome` (`none` while ongoing, `some winner`
when finished). -/
structure GamePlugin where
  current_turn : Nat → PlayerId
  applyMove : Nat → PlayerId → List (String × ArgValue) → Except String Nat
  outcome : Nat → Option PlayerId

/-- Orchestrator-visible session state (`GameInterface` fields plus the
registries it touches): the opaque plugin state, the `ending_game` flag,
whether the session is still in `CURRENT_GAMES`, how many times the
handler was invoked, how many times `game_over` ran (settlements), how
many render updates (`display_game_state`) happened, and the per-player
`matches_played` increment count applied by `Database.end_game`. -/
structure Session where
  gameState : Nat
  ending_game : Bool
  registered : Bool
  pluginInvocations : Nat
  settlements : Nat
  renders : Nat
  matchesPlayedIncrements : Nat
deriving DecidableEq, Repr

/-- `utils/interfaces.py game_over` as it affects the session and the
registries: sets `ending_game = True`, runs settlement once (for a rated
game `Database.end_game` increments every participant's `matches_played`
by 1), pops the players from `IN_GAME` and the session from
`CURRENT_GAMES`. -/
def game_over_session (s : Session) : Session :=
  { s with ending_game := true, settlements := s.settlements + 1,
           matchesPlayedIncrements := s.matchesPlayedIncrements + 1,
           registered := false }

/-- Result of a command-submitted move (which branch of
`GameInterface.move_by_command` returned). -/
inductive MoveResult where
  | rejectedEnding
  | notYourTurn
  | pluginError (e : String)
  | moved
  | movedGameOver
deriving DecidableEq, Repr

/-- The locked section of `GameInterface.move_by_command` (everything inside
`async with self.processing_move`): re-read `current_turn` fresh, reject if
`ctx.user.id != self.current_turn.id and current_turn_required`; invoke the
handler inside try/except — an exception is reported to the actor and the
function returns (no render update, no outcome check); on success run
`display_game_state` and query `outcome()`, calling `game_over` when it is
not `None`. -/
def move_body (g : GamePlugin) (s : Session) (actor : PlayerId)
    (arguments : List (String × ArgValue)) (current_turn_required : Bool) :
    MoveResult × Session :=
  if (actor != g.current_turn s.gameState) && current_turn_required then (.notYourTurn, s)
  else
    let s1 := { s with pluginInvocations := s.pluginInvocations + 1 }
    match g.applyMove s.gameState actor arguments with
    | .error e => (.pluginError e, s1)
    | .ok st =>
      let s2 := { s1 with gameState := st, renders := s1.renders + 1 }
      match g.outcome st with
      | none => (.moved, s2)
      | some _ => (.movedGameOver, game_over_session s2)

/-- `GameInterface.move_by_command` run without interleaving: the
`ending_game` test (placed before the lock), then the locked body. -/
def move_by_command (g : GamePlugin) (s : Session) (actor : PlayerId)
    (arguments : List (String × ArgValue)) (current_turn_required : Bool) :
    MoveResult × Session :=
  if s.ending_game then (.rejectedEnding, s)
  else move_body g s actor arguments current_turn_required

/-- The string-to-declared-type coercion loop of
`GameInterface.move_by_button` (source lines 260–269, before the
try/except): `int` annotation ⇒ `int(v)`, `float` annotation ⇒ `float(v)`,
anything else passes through unchanged; the first `ValueError` aborts the
whole call. -/
def convert_arguments (signature : String → ParamType) :
    List (String × String) → Except String (List (String × ArgValue))
  | [] => .ok []
  | (k, v) :: rest =>
    let one : Except String ArgValue :=
      match signature k with
      | .int => (pyInt v).map .intV
      | .float => (pyFloat v).map .floatV
      | .str => .ok (.strV v)
    match one with
    | .error e => .error e
    | .ok a => (convert_arguments signature rest).map (fun l => (k, a) :: l)

/-- Result of a button-submitted move. `uncaughtException` is an exception
raised before the try/except (the coercion loop): it propagates out of
`move_by_button`; `pluginError` is an exception caught by the try/except
and reported to the actor. -/
inductive ButtonMoveResult where
  | rejectedEnding
  | notYourTurn
  | uncaughtException (e : String)
  | pluginError (e : String)
  | moved
  | movedGameOver
deriving DecidableEq, Repr

/-- `GameInterface.move_by_button`: `ending_game` test, lock, fresh turn
check, then argument coercion (outside the try/except), then the handler
invocation inside try/except, render update and outcome check. -/
def move_by_button (g : GamePlugin) (signature : String → ParamType) (s : Session)
    (actor : PlayerId) (arguments : List (String × String)) (current_turn_required : Bool) :
    ButtonMoveResult × Session :=
  if s.ending_game then (.rejectedEnding, s)
  else if (actor != g.current_turn s.gameState) && current_turn_required then (.notYourTurn, s)
  else
    match convert_arguments signature arguments with
    | .error e => (.uncaughtException e, s)
    | .ok args =>
      let s1 := { s with pluginInvocations := s.pluginInvocations + 1 }
      match g.applyMove s.gameState actor args with
      | .error e => (.pluginError e, s1)
      | .ok st =>
        let s2 := { s1 with gameState := st, renders := s1.renders + 1 }
        match g.outcome st with
        | none => (.moved, s2)
        | some _ => (.movedGameOver, game_over_session s2)

/-! ## Cooperative interleaving of concurrent move submissions

`asyncio` model: a move task runs synchronously from its invocation up to
its first suspension. The `ending_game` test is executed there, before
`async with self.processing_move`; it is not repeated after the lock is
acquired. The locked section excludes every other move task from the
session state, so it is one atomic step here. -/

/-- Program point of one in-flight move-submission task. -/
inductive MovePhase where
  | checkEnding
  | acquiring
  | processing
  | finished (r : MoveResult)
deriving DecidableEq, Repr

/-- One move-submission task: its actor, whether the move requires the
turn, its (already parsed) arguments, and its current program point. -/
structure MoveTask where
  actor : PlayerId
  current_turn_required : Bool
  arguments : List (String × ArgValue)
  phase : MovePhase
deriving DecidableEq, Repr

/-- A session together with its `processing_move` lock and the in-flight
move tasks (task id = list index). -/
structure SchedState where
  session : Session
  lockOwner : Option Nat
  tasks : List MoveTask
deriving DecidableEq, Repr

/-- Advance task `i` by one step: run the pre-lock `ending_game` test, or
acquire the free lock (a held lock blocks, callers queue), or run the
locked body atomically and release. -/
def stepTask (g : GamePlugin) (c : SchedState) (i : Nat) : SchedState :=
  match c.tasks.get? i with
  | none => c
  | some t =>
    match t.phase with
    | .checkEnding =>
      if c.session.ending_game then
        { c with tasks := c.tasks.set i { t with phase := .finished .rejectedEnding } }
      else
        { c with tasks := c.tasks.set i { t with phase := .acquiring } }
    | .acquiring =>
      match c.lockOwner with
      | some _ => c
      | none => { c with lockOwner := some i, tasks := c.tasks.set i { t with phase := .processing } }
    | .processing =>
      let rs := move_body g c.session t.actor t.arguments t.current_turn_required
      { c with session := rs.2, lockOwner := none,
               tasks := c.tasks.set i { t with phase := .finished rs.1 } }
    | .finished _ => c

/-- Run a cooperative schedule (list of task ids to step). -/
def runSchedule (g : GamePlugin) (c : SchedState) : List Nat → SchedState
  | [] => c
  | i :: rest => runSchedule g (stepTask g c i) rest

/-! ## Settlement rank construction (`utils/interfaces.py game_over`) -/

/-- Rated single-`Player`-winner branch of `game_over`: the rating groups
are the winner followed by every player whose id differs from the
winner's (`p != outcome` compares by id). -/
def winner_rating_groups (players : List PlayerId) (winner : PlayerId) : List PlayerId :=
  winner :: players.filter (fun p => p ≠ winner)

/-- Rated single-winner branch of `game_over`:
`rankings = [0, *[1 for _ in range(len(players) - 1)]]`. -/
def winner_rankings (players : List PlayerId) : List Nat :=
  0 :: List.replicate (players.length - 1) 1

/-- The placement loop of `game_over` (both rated and non-rated branches):
starting from `current_ranking = r`, every player of each placement
sub-list is appended with the current ranking, which is incremented once
per sub-list. Returns `(rankings, flattened groups)`. -/
def placement_rank_groups : List (List PlayerId) → Nat → List Nat × List PlayerId
  | [], _ => ([], [])
  | g :: rest, r =>
    let p := placement_rank_groups rest (r + 1)
    (g.map (fun _ => r) ++ p.1, g ++ p.2)

/-- The placement branch as `game_over` runs it (`current_ranking = 0`). -/
def game_over_placement (outcome : List (List PlayerId)) : List Nat × List PlayerId :=
  placement_rank_groups outcome 0

/-! ## Concrete instances used by the theorems -/

/-- A minimal two-player plugin: players 0 and 1 alternate
(`current_turn`), every move succeeds and advances the state, the game is
over with winner 0 as soon as one move has been made (and `outcome()`
keeps returning that winner afterwards, as a finished board does). -/
def demoPlugin : GamePlugin where
  current_turn n := n % 2
  applyMove n _ _ := .ok (n + 1)
  outcome n := if 1 ≤ n then some 0 else none

/-- A plugin whose move handler always raises. -/
def failingPlugin : GamePlugin where
  current_turn _ := 0
  applyMove _ _ _ := .error "IndexError"
  outcome _ := none

/-- A freshly created, registered session before any move. -/
def freshSession : Session :=
  { gameState := 0, ending_game := false, registered := true,
    pluginInvocations := 0, settlements := 0, renders := 0,
    matchesPlayedIncrements := 0 }

/-- A handler signature declaring `x : int`, `y : float`, everything else a
string. -/
def demoSignature (k : String) : ParamType :=
  if k = "x" then .int else if k = "y" then .float else .str

/-- Two concurrent move submissions on a fresh session: task 0 by player 0
(whose turn it is), task 1 by player 1 (whose turn it will be after
player 0's move). -/
def raceStart : SchedState :=
  { session := freshSession, lockOwner := none,
    tasks := [⟨0, true, [], .checkEnding⟩, ⟨1, true, [], .checkEnding⟩] }

/-- The interleaving in which task 0 acquires the lock first, task 1 passes
its `ending_game` test and then blocks on the lock, task 0's move ends the
game, and task 1 then acquires the lock and runs. -/
def raceSchedule : List Nat := [0, 0, 1, 1, 0, 1, 1]

/-- A pending two-player lobby whose queue holds only its creator. -/
def exLobbyC5 : MatchmakingInterface :=
  mkMatchmakingInterface 1 "tictactoe" 100 true false (some (.exact 2))

/-- A pending public lobby whose queue holds only its creator. -/
def exLobbyC7 : MatchmakingInterface :=
  mkMatchmakingInterface 1 "tictactoe" 300 true false none

/-- `exLobbyC7` after its last member left: the cancelled lobby. -/
def cancelledLobbyC7 : MatchmakingInterface := (callback_leave_game exLobbyC7 1).2

/-- A public lobby whose creator has banned player 7. -/
def exLobbyC10 : MatchmakingInterface :=
  { mkMatchmakingInterface 1 "tictactoe" 400 true false none with blacklist := [7] }

/-- The registries before any lobby exists. -/
def emptyBotState : BotState := ⟨[], []⟩

/-- The registries after player 1 created lobby 100 and then, without
leaving it, created lobby 200. -/
def doubleCreateState : BotState :=
  begin_game (begin_game emptyBotState 1 "tictactoe" 100 true false (some (.exact 2)))
    1 "tictactoe" 200 true false (some (.exact 2))

/-! ## Helper lemmas -/

theorem length_filter_ne_add_count (l : List PlayerId) (a : PlayerId) :
    (l.filter (fun p => p ≠ a)).length + l.count a = l.length := by
  induction l with
  | nil => simp
  | cons b t ih =>
    by_cases hb : b = a
    · subst hb
      simp only [List.filter_cons, List.count_cons, decide_not] at ih ⊢
      simp at ih ⊢
      omega
    · simp only [List.filter_cons, List.count_cons, decide_not] at ih ⊢
      simp [hb] at ih ⊢
      omega

theorem mapGet_mapSet_self {β : Type} (l : List (Nat × β)) (k : Nat) (v : β) :
    mapGet (mapSet l k v) k = some v := by
  induction l with
  | nil => simp [mapSet, mapGet]
  | cons p t ih =>
    by_cases hp : p.1 = k
    · by_cases ht : t.any (fun q => q.1 == k)
      · simp [mapSet, mapGet, hp, ht] at ih ⊢
      · simp [mapSet, mapGet, hp, ht] at ih ⊢
    · by_cases ht : t.any (fun q => q.1 == k)
      · simp [mapSet, mapGet, hp, ht] at ih ⊢
        exact ih
      · simp [mapSet, mapGet, hp, ht] at ih ⊢
        exact ih

theorem placement_rank_groups_fst (out : List (List PlayerId)) (r : Nat) :
    (placement_rank_groups out r).1
      = (out.enumFrom r).flatMap (fun ig => ig.2.map (fun _ => ig.1)) := by
  induction out generalizing r with
  | nil => rfl
  | cons g rest ih => simp [placement_rank_groups, List.enumFrom, ih]

theorem placement_rank_groups_snd (out : List (List PlayerId)) (r : Nat) :
    (placement_rank_groups out r).2 = out.flatten := by
  induction out generalizing r with
  | nil => rfl
  | cons g rest ih => simp [placement_rank_groups, ih]

theorem mem_placement_rank_groups_fst (out : List (List PlayerId)) (k : Nat)
    (hg : ∀ g ∈ out, g ≠ []) :
    ∀ r : Nat, k ∈ (placement_rank_groups out r).1 ↔ (r ≤ k ∧ k < r + out.length) := by
  induction out with
  | nil => intro r; simp [placement_rank_groups]
  | cons g rest ih =>
    intro r
    have hg0 : g ≠ [] := hg g (by simp)
    have hrest : ∀ g' ∈ rest, g' ≠ [] := fun g' h => hg g' (by simp [h])
    have ihr := (ih hrest) (r + 1)
    simp only [placement_rank_groups, List.mem_append, List.mem_map, ihr, List.length_cons]
    constructor
    · rintro (⟨a, _, rfl⟩ | ⟨h1, h2⟩) <;> omega
    · rintro ⟨h1, h2⟩
      rcases Nat.eq_or_lt_of_le h1 with rfl | h
      · obtain ⟨a, ha⟩ := List.exists_mem_of_ne_nil g hg0
        exact Or.inl ⟨a, ha, rfl⟩
      · exact Or.inr ⟨h, by omega⟩

/-! ## Claim theorems -/

/-- C8: `player_verification_function` built from an exact integer count
`c` returns a predicate true for `n` iff `n = c`; built from a list of
counts `L` it returns a predicate true for `n` iff `n ∈ L`, false
otherwise. -/
theorem C8_player_verification :
    (∀ c n, player_verification_function (.exact c) n = true ↔ n = c)
    ∧ (∀ L n, player_verification_function (.counts L) n = true ↔ n ∈ L) := by
  constructor
  · intro c n
    simp [player_verification_function]
  · intro L n
    simp [player_verification_function, List.contains]

/-- C9 counterexample: on first contact with the game type `"liars"` the
initialized record has `sigma = 400`, which is not `mu × 1/6`: the sigma
ratio is per game type, not the fixed `1/6` the claim states for every
game type. -/
theorem C9_counterexample :
    (initialRatingStatistic "liars").map InternalPlayerRatingStatistic.sigma = some 400
    ∧ (400 : ℚ) ≠ MU * (1 / 6) := by
  constructor
  · have h : lookupTrueskill "liars" = some ⟨2/5, 1/5, 1/250, 0⟩ := by
      simp [lookupTrueskill, GAME_TRUESKILL]
    simp only [initialRatingStatistic, h, Option.map_some]
    norm_num [MU]
  · intro h
    rw [MU] at h
    norm_num at h

/-- C9 amended: on first contact the initialized record has `mu = 1000` and
`sigma = mu ×` the game type's configured sigma ratio (`1/6` for
tictactoe, `2/5` for liars, `1/3` for test); the same pair is what
`initialize_user_game_ratings` inserts; `sigma ≥ 0` holds for every
configured game type; and the `1/6` ratio does hold for `"tictactoe"`. -/
theorem C9_first_contact_rating (name : String) (p : TrueskillParams)
    (h : lookupTrueskill name = some p) :
    initialRatingStatistic name = some ⟨name, 1000, p.sigma * 1000, false⟩
    ∧ initialize_user_game_ratings name = some (1000, p.sigma * 1000)
    ∧ (∀ q ∈ GAME_TRUESKILL, 0 ≤ q.2.sigma * MU)
    ∧ (lookupTrueskill "tictactoe").map (fun t => t.sigma * MU) = some (MU * (1 / 6)) := by
  refine ⟨?_, ?_, ?_, ?_⟩
  · simp [initialRatingStatistic, h, MU]
  · simp [initialize_user_game_ratings, h, MU]
  · intro q hq
    simp [GAME_TRUESKILL] at hq
    rcases hq with h1 | h1 | h1 <;> subst h1 <;> norm_num [MU]
  · show (lookupTrueskill "tictactoe").map (fun t => t.sigma * MU) = some (MU * (1 / 6))
    norm_num [lookupTrueskill, GAME_TRUESKILL, MU]

/-- C9 witness: the amended theorem applied to `"tictactoe"`. -/
theorem C9_first_contact_rating_witness :
    initialRatingStatistic "tictactoe" = some ⟨"tictactoe", 1000, (1 / 6 : ℚ) * 1000, false⟩ :=
  (C9_first_contact_rating "tictactoe" ⟨1/6, 1/12, 1/100, 9/10⟩ rfl).1

/-- C2: Settlement's rank list is dense and 0-based with rank equal to the
enumeration index of the placement sub-list: the single-winner outcome
yields groups `[winner, losers...]` (same length as the player list) with
ranks `[0, 1, ..., 1]`; placement groups flatten group-by-group, each
player's rank being the index of its sub-list, ties sharing a rank; with
nonempty groups exactly the ranks `0 .. groups-1` occur (no skip); and
`[[A,B],[C],[D]]` yields ranks `[0,0,1,2]` for `[A,B,C,D]`. -/
theorem C2_settlement_rank_lists
    (players : List PlayerId) (winner : PlayerId) (hw : players.count winner = 1)
    (out : List (List PlayerId)) (hg : ∀ g ∈ out, g ≠ []) :
    ((winner_rating_groups players winner).headD 0 = winner
      ∧ (winner_rating_groups players winner).length = players.length
      ∧ winner_rankings players = 0 :: List.replicate (players.length - 1) 1
      ∧ (winner_rankings players).length = players.length)
    ∧ ((game_over_placement out).1
          = out.enum.flatMap (fun ig => ig.2.map (fun _ => ig.1))
      ∧ (game_over_placement out).2 = out.flatten
      ∧ (∀ k, k ∈ (game_over_placement out).1 ↔ k < out.length))
    ∧ game_over_placement [[10, 11], [12], [13]] = ([0, 0, 1, 2], [10, 11, 12, 13]) := by
  have hmem : winner ∈ players := by
    have : 0 < players.count winner := by omega
    exact List.count_pos_iff.mp this
  have hlen : 1 ≤ players.length := List.length_pos_of_mem hmem
  refine ⟨⟨rfl, ?_, rfl, ?_⟩, ⟨?_, ?_, ?_⟩, ?_⟩
  · have h := length_filter_ne_add_count players winner
    rw [hw] at h
    show (players.filter (fun p => p ≠ winner)).length + 1 = players.length
    omega
  · simp [winner_rankings]
    omega
  · exact placement_rank_groups_fst out 0
  · exact placement_rank_groups_snd out 0
  · intro k
    show k ∈ (placement_rank_groups out 0).1 ↔ k < out.length
    rw [mem_placement_rank_groups_fst out k hg 0]
    omega
  · rfl

/-- C2 witness: the theorem applied to players `[5, 6, 7]` with winner `6`
and to the placement outcome `[[10, 11], [12], [13]]`. -/
theorem C2_settlement_rank_lists_witness :
    ((winner_rating_groups [5, 6, 7] 6).length = 3
      ∧ winner_rankings [5, 6, 7] = [0, 1, 1])
    ∧ game_over_placement [[10, 11], [12], [13]] = ([0, 0, 1, 2], [10, 11, 12, 13]) := by
  have h := C2_settlement_rank_lists [5, 6, 7] 6 (by decide) [[10, 11], [12], [13]]
    (by intro g hg; fin_cases hg <;> simp)
  exact ⟨⟨h.1.2.1, h.1.2.2.1⟩, h.2.2⟩

/-- C4: an exception raised by the plugin's move handler is caught at the
orchestrator boundary and reported (`pluginError`); the session is not
torn down and remains alive (`registered`, `ending_game` unchanged), and
no state advance occurs: the game state is untouched and the post-move
render update (`renders`) and outcome check (`settlements`) are skipped. -/
theorem C4_plugin_error_isolated
    (g : GamePlugin) (s : Session) (actor : PlayerId) (args : List (String × ArgValue))
    (ctr : Bool) (e : String)
    (hend : s.ending_game = false)
    (hturn : ((actor != g.current_turn s.gameState) && ctr) = false)
    (herr : g.applyMove s.gameState actor args = .error e) :
    (move_by_command g s actor args ctr).1 = .pluginError e
    ∧ (move_by_command g s actor args ctr).2.gameState = s.gameState
    ∧ (move_by_command g s actor args ctr).2.renders = s.renders
    ∧ (move_by_command g s actor args ctr).2.settlements = s.settlements
    ∧ (move_by_command g s actor args ctr).2.registered = s.registered
    ∧ (move_by_command g s actor args ctr).2.ending_game = false := by
  simp [move_by_command, move_body, hend, hturn, herr]

/-- C4 witness: a handler that always raises, on a fresh session. -/
theorem C4_plugin_error_isolated_witness :
    (move_by_command failingPlugin freshSession 0 [] true).1 = .pluginError "IndexError"
    ∧ (move_by_command failingPlugin freshSession 0 [] true).2.settlements = 0
    ∧ (move_by_command failingPlugin freshSession 0 [] true).2.registered = true := by
  have h := C4_plugin_error_isolated failingPlugin freshSession 0 [] true "IndexError"
    rfl rfl rfl
  exact ⟨h.1, h.2.2.2.1, h.2.2.2.2.1⟩

/-- C3 counterexample: a button move whose handler declares `x : int`,
given the non-numeric payload `"abc"`, raises `ValueError` in the coercion
loop, which sits before the try/except of `move_by_button`: the call ends
with an uncaught, propagating exception, not with the caught-and-reported
move error the claim requires. -/
theorem C3_counterexample :
    (move_by_button demoPlugin demoSignature freshSession 0 [("x", "abc")] true).1
      = .uncaughtException "ValueError"
    ∧ (move_by_button demoPlugin demoSignature freshSession 0 [("x", "abc")] true).1
      ≠ .pluginError "ValueError" := by
  constructor
  · rfl
  · decide

/-- C3 amended: button arguments are coerced per the declared annotation —
`int` via `int()`, `float` via `float()`, any other annotation passes the
string through unchanged — before invocation; but a non-numeric string for
an `int` parameter raises `ValueError` in the coercion loop, which runs
before the try/except, so the failure propagates out of `move_by_button`
uncaught (session unchanged) instead of being reported as a move error. -/
theorem C3_button_argument_coercion
    (sig : String → ParamType) (k v : String) (rest : List (String × String)) (n : Int)
    (g : GamePlugin) (s : Session) (actor : PlayerId) (args : List (String × String))
    (ctr : Bool) (e : String)
    (hend : s.ending_game = false)
    (hturn : ((actor != g.current_turn s.gameState) && ctr) = false)
    (herr : convert_arguments sig args = .error e) :
    (sig k = .str → convert_arguments sig ((k, v) :: rest)
        = (convert_arguments sig rest).map (fun l => (k, .strV v) :: l))
    ∧ (sig k = .int → pyIntParse v = some n → convert_arguments sig ((k, v) :: rest)
        = (convert_arguments sig rest).map (fun l => (k, .intV n) :: l))
    ∧ (sig k = .float → pyIntParse v = some n → convert_arguments sig ((k, v) :: rest)
        = (convert_arguments sig rest).map (fun l => (k, .floatV (n : ℚ)) :: l))
    ∧ (sig k = .int → pyIntParse v = none →
        convert_arguments sig ((k, v) :: rest) = .error "ValueError")
    ∧ move_by_button g sig s actor args ctr = (.uncaughtException e, s) := by
  refine ⟨?_, ?_, ?_, ?_, ?_⟩
  · intro hk
    cases hrest : convert_arguments sig rest <;>
      simp [convert_arguments, hk, hrest, Except.map]
  · intro hk hv
    cases hrest : convert_arguments sig rest <;>
      simp [convert_arguments, hk, hrest, pyInt, hv, Except.map]
  · intro hk hv
    cases hrest : convert_arguments sig rest <;>
      simp [convert_arguments, hk, hrest, pyFloat, hv, Except.map]
  · intro hk hv
    simp [convert_arguments, hk, pyInt, hv, Except.map]
  · simp [move_by_button, hend, hturn, herr]

/-- C3 witness: the amended theorem at the concrete signature
`x : int`, payload `"abc"`. -/
theorem C3_button_argument_coercion_witness :
    convert_arguments demoSignature [("x", "abc")] = .error "ValueError"
    ∧ move_by_button demoPlugin demoSignature freshSession 1 [("x", "abc")] false
        = (.uncaughtException "ValueError", freshSession) := by
  have h := C3_button_argument_coercion demoSignature "x" "abc" [] 0 demoPlugin freshSession
    1 [("x", "abc")] false "ValueError" rfl rfl rfl
  exact ⟨h.2.2.2.1 rfl rfl, h.2.2.2.2⟩

/-- C1 (failing trace): two concurrent move submissions on a fresh session.
Task 0 (player 0, whose turn it is) passes the pre-lock `ending_game`
test and acquires the lock; task 1 (player 1) also passes the test — the
game is not over yet — and blocks on the lock; task 0's move ends the
game (`game_over` runs: settlement 1, `ending_game` set); task 1 then
acquires the lock and, the `ending_game` test never being repeated after
lock acquisition, invokes the plugin post-mortem and runs `game_over` a
second time: two settlements, and `matches_played` incremented twice per
player — contradicting the claim and the at-most-once requirement. -/
theorem C1_double_settlement_trace :
    (runSchedule demoPlugin raceStart raceSchedule).session.settlements = 2
    ∧ (runSchedule demoPlugin raceStart raceSchedule).session.pluginInvocations = 2
    ∧ (runSchedule demoPlugin raceStart raceSchedule).session.matchesPlayedIncrements = 2
    ∧ (runSchedule demoPlugin raceStart raceSchedule).tasks.map MoveTask.phase
        = [.finished .movedGameOver, .finished .movedGameOver] := by
  refine ⟨rfl, rfl, rfl, rfl⟩

/-- C5 counterexample: a two-player lobby whose queue holds only its
creator: the player-count validator rejects the queue size (the start
button is disabled), yet `callback_start_game` by the creator succeeds
and transitions the lobby to succeeded — there is no `CapacityNotMet`
failure in the start callback. -/
theorem C5_counterexample :
    update_embed_can_start exLobbyC5 = false
    ∧ callback_start_game exLobbyC5 1 = (.started, { exLobbyC5 with outcome := some true }) := by
  constructor
  · rfl
  · rfl

/-- C5 amended: start by a non-creator fails with `NotCreator` and leaves
the lobby untouched; a start by the creator always succeeds and sets the
outcome to succeeded, regardless of the player-count validator — the
validator is enforced only by `update_embed` disabling the start button
(`can_start = verify(queue size)`), not inside `callback_start_game`. -/
theorem C5_start_game (m : MatchmakingInterface) (actor : PlayerId) :
    (actor ≠ m.creator → callback_start_game m actor = (.notCreator, m))
    ∧ (actor = m.creator → callback_start_game m actor = (.started, { m with outcome := some true }))
    ∧ (lobby_player_verification m m.queued_players.length = false →
        update_embed_can_start m = false) := by
  refine ⟨?_, ?_, ?_⟩
  · intro h
    simp [callback_start_game, h]
  · intro h
    simp [callback_start_game, h]
  · intro h
    simp [update_embed_can_start, h]

/-- C5 witness: the amended theorem at the concrete two-player lobby. -/
theorem C5_start_game_witness :
    callback_start_game exLobbyC5 2 = (.notCreator, exLobbyC5)
    ∧ callback_start_game exLobbyC5 1 = (.started, { exLobbyC5 with outcome := some true })
    ∧ update_embed_can_start exLobbyC5 = false :=
  ⟨(C5_start_game exLobbyC5 2).1 (by decide),
   (C5_start_game exLobbyC5 1).2.1 rfl,
   (C5_start_game exLobbyC5 1).2.2 rfl⟩

/-- C6 counterexample: player 1 creates lobby 100 and then, while still
queued there, creates lobby 200: the second `begin_game` is not rejected,
so player 1 is simultaneously queued in two pending lobbies and
`IN_MATCHMAKING` merely points to the most recent one. -/
theorem C6_counterexample :
    (mapGet doubleCreateState.current_matchmaking 100).map
        MatchmakingInterface.queued_players = some [1]
    ∧ (mapGet doubleCreateState.current_matchmaking 200).map
        MatchmakingInterface.queued_players = some [1]
    ∧ (mapGet doubleCreateState.current_matchmaking 100).map
        MatchmakingInterface.outcome = some none
    ∧ mapGet doubleCreateState.in_matchmaking 1 = some 200 := by
  refine ⟨rfl, rfl, rfl, rfl⟩

/-- C6 amended: the membership maps are updated in the same synchronous
step as each transition (`begin_game` registers the new lobby and maps the
creator to it; a successful join maps the joiner), and re-joining a lobby
one is already queued in is rejected; but neither `begin_game` nor
`callback_ready_game` consults the per-player membership maps, so a
player already registered there can still create or join another lobby
— the at-most-one-lobby invariant is not enforced. -/
theorem C6_membership_maps
    (s : BotState) (creator : PlayerId) (gt : String) (mid : Nat) (rated priv : Bool)
    (pa : Option PlayersSpec) (m : MatchmakingInterface) (actor : PlayerId)
    (hq : actor ∈ m.queued_players) :
    mapGet (begin_game s creator gt mid rated priv pa).current_matchmaking mid
        = some (mkMatchmakingInterface creator gt mid rated priv pa)
    ∧ mapGet (begin_game s creator gt mid rated priv pa).in_matchmaking creator = some mid
    ∧ (mkMatchmakingInterface creator gt mid rated priv pa).queued_players = [creator]
    ∧ callback_ready_game m actor = (.alreadyIn, m) := by
  refine ⟨?_, ?_, rfl, ?_⟩
  · exact mapGet_mapSet_self _ _ _
  · exact mapGet_mapSet_self _ _ _
  · simp [callback_ready_game, hq]

/-- C6 witness: the amended theorem at the concrete double-create state. -/
theorem C6_membership_maps_witness :
    mapGet (begin_game emptyBotState 1 "tictactoe" 100 true false
        (some (.exact 2))).in_matchmaking 1 = some 100
    ∧ callback_ready_game (mkMatchmakingInterface 1 "tictactoe" 100 true false
        (some (.exact 2))) 1
      = (.alreadyIn, mkMatchmakingInterface 1 "tictactoe" 100 true false (some (.exact 2))) :=
  ⟨(C6_membership_maps emptyBotState 1 "tictactoe" 100 true false (some (.exact 2))
      (mkMatchmakingInterface 1 "tictactoe" 100 true false (some (.exact 2))) 1
      (by decide)).2.1,
   (C6_membership_maps emptyBotState 1 "tictactoe" 100 true false (some (.exact 2))
      (mkMatchmakingInterface 1 "tictactoe" 100 true false (some (.exact 2))) 1
      (by decide)).2.2.2⟩

/-- C7 counterexample: after the last member of a public lobby leaves, the
lobby's outcome is cancelled, yet a join by another player on that very
interface still succeeds and adds them to the queue —
`callback_ready_game` never consults the outcome, so "can never again
accept join" fails at the interface level. -/
theorem C7_counterexample :
    cancelledLobbyC7.outcome = some false
    ∧ (callback_ready_game cancelledLobbyC7 2).1 = .joined
    ∧ (callback_ready_game cancelledLobbyC7 2).2.queued_players = [2] := by
  refine ⟨rfl, rfl, rfl⟩

/-- C7 amended: when the last remaining member leaves, the lobby always
transitions to the cancelled outcome; however `callback_ready_game` is
insensitive to the outcome field (its result and resulting queue are the
same whatever the outcome is), so the cancelled interface itself would
still accept a join — further joins are prevented only by the deletion of
the lobby message (and its join button), not by the lobby state. -/
theorem C7_last_leave_cancels (m : MatchmakingInterface) (actor a2 : PlayerId)
    (o : Option Bool) (hq : m.queued_players = [actor]) :
    callback_leave_game m actor
      = (.cancelledLobby, { m with queued_players := [], outcome := some false })
    ∧ (callback_ready_game { m with outcome := o } a2).1 = (callback_ready_game m a2).1
    ∧ (callback_ready_game { m with outcome := o } a2).2.queued_players
        = (callback_ready_game m a2).2.queued_players := by
  refine ⟨?_, ?_, ?_⟩
  · simp [callback_leave_game, hq, List.erase_cons]
  · simp only [callback_ready_game]
    split_ifs <;> rfl
  · simp only [callback_ready_game]
    split_ifs <;> rfl

/-- C7 witness: the amended theorem at the concrete lobby whose only
member (player 1) leaves, then player 2 joins the cancelled interface. -/
theorem C7_last_leave_cancels_witness :
    callback_leave_game exLobbyC7 1
      = (.cancelledLobby, { exLobbyC7 with queued_players := [], outcome := some false })
    ∧ (callback_ready_game { exLobbyC7 with outcome := some false } 2).1
        = (callback_ready_game exLobbyC7 2).1 :=
  ⟨(C7_last_leave_cancels exLobbyC7 1 2 (some false) rfl).1,
   (C7_last_leave_cancels exLobbyC7 1 2 (some false) rfl).2.1⟩

/-- C10: on a public lobby, a blacklisted player who is not yet queued is
rejected by a plain join (`callback_ready_game` answers `banned` and
leaves the lobby unchanged), while `accept_invite` succeeds for the same
player: it removes them from the blacklist and adds them to the queued
players — an invitation overrides a prior ban. -/
theorem C10_invite_overrides_ban (m : MatchmakingInterface) (actor : PlayerId)
    (hpub : m.isPrivate = false) (hbl : actor ∈ m.blacklist)
    (hq : actor ∉ m.queued_players) (hnd : m.blacklist.Nodup) :
    (accept_invite m actor).1 = true
    ∧ actor ∉ (accept_invite m actor).2.blacklist
    ∧ actor ∈ (accept_invite m actor).2.queued_players
    ∧ callback_ready_game m actor = (.banned, m) := by
  refine ⟨?_, ?_, ?_, ?_⟩
  · simp [accept_invite, hq]
  · simp [accept_invite, hq, hpub]
    intro hmem
    exact ((hnd.mem_erase_iff).mp hmem).1 rfl
  · simp [accept_invite, hq, hpub, setAdd]
  · simp [callback_ready_game, hq, hpub, hbl]

/-- C10 witness: the theorem at the public lobby whose blacklist is `[7]`. -/
theorem C10_invite_overrides_ban_witness :
    (accept_invite exLobbyC10 7).1 = true
    ∧ callback_ready_game exLobbyC10 7 = (.banned, exLobbyC10) :=
  ⟨(C10_invite_overrides_ban exLobbyC10 7 rfl (by decide) (by decide) (by decide)).1,
   (C10_invite_overrides_ban exLobbyC10 7 rfl (by decide) (by decide) (by decide)).2.2.2⟩

end PlayCord
